import Mathlib

/-!
Verification of the S3-facade HTTP API (src/app.js, with the variant in
src/unnamed/part_000) against its natural-language specification.

Modelling conventions (shallow embedding):
* Optional string-valued request inputs (the Origin header, the contentType
  and ext body fields, the key query parameter) are modelled as
  Option String: none models an absent value.  JavaScript truthiness is
  modelled explicitly: the guards in the source (!origin, !contentType,
  !key, ext ? ... : ...) treat the empty string exactly like an absent
  value, and the definitions below test for the empty string at the same
  program points.
* The storage SDK (S3Client.send, getSignedUrl) is an external collaborator
  and is passed in as an oracle function returning an Except value: ok
  models a resolved promise, error models a thrown error.  The payload of
  a head or stream error is an Option Nat modelling the optional
  err.$metadata.httpStatusCode field.
* Each handler returns its HTTP response together with the list of
  observable effects it performed, in order: key derivation and every call
  into the storage layer.  A line of the source that calls crypto or the
  storage SDK appends the corresponding effect on exactly the paths that
  execute it.
* Dates are modelled by (year, month, day) numbers; the formatter below
  models new Date().toISOString().slice(0, 10), which for years 0..9999
  is the zero-padded YYYY-MM-DD form.  The 16 random bytes of
  crypto.randomBytes(16) are modelled as an input list of byte values.
-/

namespace ApiS3

/-- A JSON value, as far as the response bodies of this API need:
strings, numbers, booleans and undefined. -/
inductive JsVal where
  | str (s : String)
  | num (n : Int)
  | bool (b : Bool)
  | undef
deriving DecidableEq

/-- A JSON object body: an ordered list of named fields, as passed to
res.json in the source. -/
abbrev JsonBody := List (String × JsVal)

/-- An HTTP response as produced by the JSON-producing handlers:
status code (res.json without res.status is status 200) and body. -/
structure HttpResponse where
  status : Nat
  body : JsonBody
deriving DecidableEq

/-- The observable effects of a handler: deriving a fresh object key and
the calls into the storage layer (getSignedUrl for PUT or GET,
HeadObjectCommand, DeleteObjectCommand, GetObjectCommand). -/
inductive Effect where
  | keyDerived (key : String)
  | presignPut (bucket key contentType : String)
  | presignGet (bucket key : String)
  | headCall (bucket key : String)
  | deleteCall (bucket key : String)
  | getCall (bucket key : String)
deriving DecidableEq

/-- Process-wide configuration read from the environment at startup:
the bucket name (S3_BUCKET) and the public base URL (PUBLIC_BASE or the
default S3 endpoint), src/app.js lines 56-60. -/
structure Env where
  bucket : String
  publicBase : String
deriving DecidableEq

/- ================= CORS (src/app.js lines 22-32) ================= -/

/-- The origin callback of the cors middleware, src/app.js lines 29-32:
if (!origin || allowedOrigins.includes("*")) allow; otherwise allow iff
allowedOrigins.includes(origin).  none models an absent Origin header;
some "" models a present but empty one, which the !origin guard also
treats as absent (the empty string is JavaScript-falsy). -/
def corsOriginDecision (allowed : List String) (origin : Option String) : Bool :=
  match origin with
  | none => true
  | some o =>
    if o = "" then true
    else if allowed.contains "*" then true
    else allowed.contains o

/- ============ Key derivation (src/app.js lines 88-91) ============ -/

/-- The decimal digit character of n % 10. -/
def digitChar (n : Nat) : Char := Char.ofNat (48 + n % 10)

/-- Two-digit zero-padded decimal rendering, as toISOString uses for the
month and day fields (always two digits for values 0..99). -/
def pad2 (n : Nat) : String := String.mk [digitChar (n / 10), digitChar n]

/-- Four-digit zero-padded decimal rendering, as toISOString uses for the
year field of dates whose year is 0..9999. -/
def pad4 (n : Nat) : String :=
  String.mk [digitChar (n / 1000), digitChar (n / 100), digitChar (n / 10), digitChar n]

/-- Models new Date().toISOString().slice(0, 10): the zero-padded
YYYY-MM-DD rendering of the current UTC date, for years 0..9999. -/
def isoDate (y m d : Nat) : String := pad4 y ++ "-" ++ pad2 m ++ "-" ++ pad2 d

/-- The lowercase hexadecimal digit character for n < 16 (0-9 then a-f),
as Buffer.toString("hex") renders each nibble. -/
def hexDigit (n : Nat) : Char :=
  Char.ofNat (if n < 10 then 48 + n else 87 + n)

/-- The two lowercase hex characters of one byte, high nibble first. -/
def byteToHex (b : Nat) : List Char := [hexDigit (b / 16), hexDigit (b % 16)]

/-- Models buffer.toString("hex"): each byte rendered as two lowercase
hex characters, in order. -/
def bytesToHex (bs : List Nat) : String := String.mk (bs.map byteToHex).flatten

/-- Removes the first occurrence of the dot character from a character
list, leaving everything else unchanged; the remaining characters keep
their order.  This is the behaviour of the JavaScript expression
s.replace(".", "") with a string (non-global) pattern. -/
def removeFirstDot : List Char → List Char
  | [] => []
  | c :: cs => if c = '.' then cs else c :: removeFirstDot cs

/-- Models String(ext).replace(".", ""): remove the first dot, wherever
it occurs. -/
def jsReplaceFirstDot (e : String) : String := String.mk (removeFirstDot e.data)

/-- The extension suffix of the derived key, src/app.js line 91:
(ext ? "." + String(ext).replace(".", "") : "").  none and the empty
string are both falsy, yielding the empty suffix. -/
def extSuffix : Option String → String
  | none => ""
  | some e => if e = "" then "" else "." ++ jsReplaceFirstDot e

/-- The key derivation of the upload handler, src/app.js lines 88-91:
"uploads/" + date + "/" + 16 random bytes as hex + optional extension
suffix. -/
def deriveKey (y m d : Nat) (rnd : List Nat) (ext : Option String) : String :=
  "uploads/" ++ isoDate y m d ++ "/" ++ bytesToHex rnd ++ extSuffix ext

/- ============ The key pattern of the specification ============ -/

/-- True for decimal digit characters, the regex class backslash-d. -/
def isDigitChar (c : Char) : Bool := c.isDigit

/-- True for lowercase hexadecimal digit characters, the regex
class [0-9a-f]. -/
def isLowerHex (c : Char) : Bool :=
  c.isDigit || (decide (97 ≤ c.toNat) && decide (c.toNat ≤ 102))

/-- True for word characters, the regex class backslash-w,
that is [A-Za-z0-9_]. -/
def isWordChar (c : Char) : Bool :=
  c.isDigit || (decide (97 ≤ c.toNat) && decide (c.toNat ≤ 122))
    || (decide (65 ≤ c.toNat) && decide (c.toNat ≤ 90)) || decide (c = '_')

/-- Consume an exact prefix of characters; some rest on success. -/
def dropPrefixStr : List Char → List Char → Option (List Char)
  | [], l => some l
  | _ :: _, [] => none
  | p :: ps, c :: cs => if c = p then dropPrefixStr ps cs else none

/-- Consume exactly n characters all satisfying p; some rest on success. -/
def takeCount (p : Char → Bool) : Nat → List Char → Option (List Char)
  | 0, l => some l
  | _ + 1, [] => none
  | n + 1, c :: cs => if p c then takeCount p n cs else none

/-- The optional extension part of the key pattern: the empty remainder,
or a dot followed by one or more word characters, anchored to the end. -/
def extPartOk : List Char → Bool
  | [] => true
  | c :: rest => c == '.' && !rest.isEmpty && rest.all isWordChar

/-- Decides the anchored key pattern of the specification:
uploads/ then four digits, dash, two digits, dash, two digits, slash,
thirty-two lowercase hex characters, then an optional dot-extension. -/
def matchesKeyPattern (s : String) : Bool :=
  match (((((((((some s.data).bind
      (dropPrefixStr "uploads/".data)).bind
      (takeCount isDigitChar 4)).bind
      (dropPrefixStr ['-'])).bind
      (takeCount isDigitChar 2)).bind
      (dropPrefixStr ['-'])).bind
      (takeCount isDigitChar 2)).bind
      (dropPrefixStr ['/'])).bind
      (takeCount isLowerHex 32)) with
  | none => false
  | some rest => extPartOk rest

/- ============ The five route handlers ============ -/

/-- The parsed JSON request body of POST /api/upload-url: the contentType
and ext fields, each possibly absent. -/
structure ReqBody where
  contentType : Option String
  ext : Option String

/-- The MIME allowlist of the upload handler, src/app.js lines 77-83. -/
def allowedMime : List String :=
  ["image/png", "image/jpeg", "image/webp", "image/gif", "image/svg+xml"]

/-- The POST /api/upload-url handler of src/app.js lines 70-110.
body = none models a missing or non-object req.body, for which the
source falls back to the empty object, making contentType undefined.
The guard if (!contentType) fires for an absent or empty contentType.
presign is the getSignedUrl oracle (bucket, key, contentType to signed
URL or thrown error). -/
def uploadHandler (env : Env) (body : Option ReqBody) (y m d : Nat)
    (rnd : List Nat) (presign : String → String → String → Except Unit String) :
    HttpResponse × List Effect :=
  let b := body.getD ⟨none, none⟩
  match b.contentType with
  | none => (⟨400, [("error", JsVal.str "contentType obrigatório")]⟩, [])
  | some contentType =>
    if contentType = "" then
      (⟨400, [("error", JsVal.str "contentType obrigatório")]⟩, [])
    else if !(allowedMime.contains contentType) then
      (⟨415, [("error", JsVal.str "MIME não permitido")]⟩, [])
    else
      let key := deriveKey y m d rnd b.ext
      match presign env.bucket key contentType with
      | Except.ok putUrl =>
        (⟨200, [("putUrl", JsVal.str putUrl), ("key", JsVal.str key),
                ("objectUrl", JsVal.str (env.publicBase ++ "/" ++ key))]⟩,
         [Effect.keyDerived key, Effect.presignPut env.bucket key contentType])
      | Except.error _ =>
        (⟨500, [("error", JsVal.str "erro ao gerar URL de upload")]⟩,
         [Effect.keyDerived key, Effect.presignPut env.bucket key contentType])

/-- The POST /api/upload-url handler of the variant source
src/unnamed/part_000 lines 65-98: identical validation and key
derivation, but the success body is the two fields url and key. -/
def uploadHandlerV (env : Env) (body : Option ReqBody) (y m d : Nat)
    (rnd : List Nat) (presign : String → String → String → Except Unit String) :
    HttpResponse × List Effect :=
  let b := body.getD ⟨none, none⟩
  match b.contentType with
  | none => (⟨400, [("error", JsVal.str "contentType obrigatório")]⟩, [])
  | some contentType =>
    if contentType = "" then
      (⟨400, [("error", JsVal.str "contentType obrigatório")]⟩, [])
    else if !(allowedMime.contains contentType) then
      (⟨415, [("error", JsVal.str "MIME não permitido")]⟩, [])
    else
      let key := deriveKey y m d rnd b.ext
      match presign env.bucket key contentType with
      | Except.ok url =>
        (⟨200, [("url", JsVal.str url), ("key", JsVal.str key)]⟩,
         [Effect.keyDerived key, Effect.presignPut env.bucket key contentType])
      | Except.error _ =>
        (⟨500, [("error", JsVal.str "erro ao gerar URL de upload")]⟩,
         [Effect.keyDerived key, Effect.presignPut env.bucket key contentType])

/-- The GET /api/download-url handler, src/app.js lines 113-125.
key = none models an absent key query parameter; the source computes
String(req.query.key || "") and rejects when the result is empty, so an
empty supplied key takes the same path. -/
def downloadUrlHandler (env : Env) (key : Option String)
    (presignGet : String → String → Except Unit String) :
    HttpResponse × List Effect :=
  match key with
  | none => (⟨400, [("error", JsVal.str "key obrigatório")]⟩, [])
  | some k =>
    if k = "" then (⟨400, [("error", JsVal.str "key obrigatório")]⟩, [])
    else
      match presignGet env.bucket k with
      | Except.ok url =>
        (⟨200, [("url", JsVal.str url)]⟩, [Effect.presignGet env.bucket k])
      | Except.error _ =>
        (⟨500, [("error", JsVal.str "erro ao gerar URL de download")]⟩,
         [Effect.presignGet env.bucket k])

/-- The metadata of a successful HeadObjectCommand: the ContentType,
ContentLength and LastModified fields of the SDK response, each possibly
absent. -/
structure HeadMeta where
  contentType : Option String
  contentLength : Option Int
  lastModified : Option String

/-- An optional string as a JSON value: undefined when absent. -/
def jsOfOptStr : Option String → JsVal
  | none => JsVal.undef
  | some s => JsVal.str s

/-- An optional integer as a JSON value: undefined when absent. -/
def jsOfOptNum : Option Int → JsVal
  | none => JsVal.undef
  | some n => JsVal.num n

/-- The GET /api/head handler, src/app.js lines 128-147.  send is the
s3.send oracle for HeadObjectCommand; a thrown error carries the optional
err.$metadata.httpStatusCode as an Option Nat. -/
def headHandler (env : Env) (key : Option String)
    (send : String → String → Except (Option Nat) HeadMeta) :
    HttpResponse × List Effect :=
  match key with
  | none => (⟨400, [("error", JsVal.str "key obrigatório")]⟩, [])
  | some k =>
    if k = "" then (⟨400, [("error", JsVal.str "key obrigatório")]⟩, [])
    else
      match send env.bucket k with
      | Except.ok out =>
        (⟨200, [("exists", JsVal.bool true),
                ("contentType", jsOfOptStr out.contentType),
                ("contentLength", jsOfOptNum out.contentLength),
                ("lastModified", jsOfOptStr out.lastModified)]⟩,
         [Effect.headCall env.bucket k])
      | Except.error e =>
        if e = some 404 then
          (⟨404, [("exists", JsVal.bool false)]⟩, [Effect.headCall env.bucket k])
        else
          (⟨500, [("error", JsVal.str "erro no head")]⟩, [Effect.headCall env.bucket k])

/-- The DELETE /api/object handler, src/app.js lines 150-161.  send is
the s3.send oracle for DeleteObjectCommand. -/
def deleteHandler (env : Env) (key : Option String)
    (send : String → String → Except Unit Unit) :
    HttpResponse × List Effect :=
  match key with
  | none => (⟨400, [("error", JsVal.str "key obrigatório")]⟩, [])
  | some k =>
    if k = "" then (⟨400, [("error", JsVal.str "key obrigatório")]⟩, [])
    else
      match send env.bucket k with
      | Except.ok _ =>
        (⟨200, [("ok", JsVal.bool true), ("key", JsVal.str k)]⟩,
         [Effect.deleteCall env.bucket k])
      | Except.error _ =>
        (⟨500, [("error", JsVal.str "erro ao deletar")]⟩,
         [Effect.deleteCall env.bucket k])

/-- The payload of a successful GetObjectCommand, as far as the stream
handler inspects it: the optional ContentType. -/
structure GetOut where
  contentType : Option String

/-- The result of the streaming GET /api/object handler: either the
object was piped to the response with the given Content-Type header, or
a JSON error response was sent. -/
inductive StreamResult where
  | piped (contentTypeHeader : String)
  | jsonError (status : Nat) (body : JsonBody)
deriving DecidableEq

/-- out.ContentType || "application/octet-stream" of src/app.js line 170:
the fallback fires for an absent or empty (falsy) ContentType. -/
def contentTypeOrDefault : Option String → String
  | none => "application/octet-stream"
  | some c => if c = "" then "application/octet-stream" else c

/-- The GET /api/object stream handler, src/app.js lines 164-176.  send
is the s3.send oracle for GetObjectCommand; a thrown error carries the
optional status code of the failure (some 404 for a missing object,
anything else for infrastructure failures). -/
def streamHandler (env : Env) (key : Option String)
    (send : String → String → Except (Option Nat) GetOut) :
    StreamResult × List Effect :=
  match key with
  | none => (StreamResult.jsonError 400 [("error", JsVal.str "key obrigatório")], [])
  | some k =>
    if k = "" then
      (StreamResult.jsonError 400 [("error", JsVal.str "key obrigatório")], [])
    else
      match send env.bucket k with
      | Except.ok out =>
        (StreamResult.piped (contentTypeOrDefault out.contentType),
         [Effect.getCall env.bucket k])
      | Except.error _ =>
        (StreamResult.jsonError 404 [("error", JsVal.str "não encontrado")],
         [Effect.getCall env.bucket k])

/- ============ Concrete fixtures for witnesses ============ -/

/-- A concrete configuration for concrete evaluations. -/
def env0 : Env := ⟨"bucket", "https://cdn.example"⟩

/-- Sixteen concrete random bytes. -/
def rnd16 : List Nat := List.replicate 16 171

/-- A presign oracle that always succeeds. -/
def presignOk : String → String → String → Except Unit String :=
  fun _ _ _ => Except.ok "https://signed.example"

/-- A presigned-GET oracle that always succeeds. -/
def presignGetOk : String → String → Except Unit String :=
  fun _ _ => Except.ok "https://signed-get.example"

/-- A head oracle that fails with status 404 (object absent). -/
def headSend404 : String → String → Except (Option Nat) HeadMeta :=
  fun _ _ => Except.error (some 404)

/-- A head oracle that fails without a 404 status (infrastructure). -/
def headSend500 : String → String → Except (Option Nat) HeadMeta :=
  fun _ _ => Except.error (some 500)

/-- A delete oracle that always succeeds. -/
def deleteOk : String → String → Except Unit Unit :=
  fun _ _ => Except.ok ()

/-- A get-object oracle that fails with a non-404 status. -/
def getSendFail : String → String → Except (Option Nat) GetOut :=
  fun _ _ => Except.error (some 403)

/-- A get-object oracle that succeeds. -/
def getSendOk : String → String → Except (Option Nat) GetOut :=
  fun _ _ => Except.ok ⟨some "image/png"⟩

/- ============ Helper lemmas ============ -/

theorem data_mk (l : List Char) : (String.mk l).data = l := rfl

theorem data_append_eq (s t : String) : (s ++ t).data = s.data ++ t.data := by
  cases s
  cases t
  rfl

theorem eq_empty_of_data_nil (e : String) (h : e.data = []) : e = "" := by
  cases e with
  | mk l =>
    rw [data_mk] at h
    subst h
    rfl

theorem data_ne_nil_of_ne_empty (e : String) (h : e ≠ "") : e.data ≠ [] :=
  fun hd => h (eq_empty_of_data_nil e hd)

theorem opt_bind_some {α β : Type} (a : α) (f : α → Option β) :
    (some a).bind f = f a := rfl

theorem dash_data : "-".data = ['-'] := rfl

theorem slash_data : "/".data = ['/'] := rfl

theorem dot_data : ".".data = ['.'] := rfl

theorem dropPrefixStr_append (p rest : List Char) :
    dropPrefixStr p (p ++ rest) = some rest := by
  induction p with
  | nil => rfl
  | cons c cs ih => simp [dropPrefixStr, ih]

theorem dropPrefixStr_cons (c : Char) (l : List Char) :
    dropPrefixStr [c] (c :: l) = some l := by
  simp [dropPrefixStr]

theorem takeCount_append (p : Char → Bool) (n : Nat) (l rest : List Char)
    (hlen : l.length = n) (hall : l.all p = true) :
    takeCount p n (l ++ rest) = some rest := by
  subst hlen
  induction l with
  | nil => rfl
  | cons c cs ih =>
    simp only [List.all_cons, Bool.and_eq_true] at hall
    simpa [takeCount, hall.1] using ih hall.2

theorem ofNat_digit_isDigit : ∀ k, k < 10 → (Char.ofNat (48 + k)).isDigit = true := by
  decide

theorem digitChar_ok (n : Nat) : isDigitChar (digitChar n) = true :=
  ofNat_digit_isDigit (n % 10) (Nat.mod_lt _ (by norm_num))

theorem hexDigit_isLowerHex : ∀ k, k < 16 → isLowerHex (hexDigit k) = true := by
  decide

theorem pad4_length (n : Nat) : (pad4 n).data.length = 4 := rfl

theorem pad2_length (n : Nat) : (pad2 n).data.length = 2 := rfl

theorem pad4_all_digits (n : Nat) : (pad4 n).data.all isDigitChar = true := by
  simp [pad4, data_mk, digitChar_ok]

theorem pad2_all_digits (n : Nat) : (pad2 n).data.all isDigitChar = true := by
  simp [pad2, data_mk, digitChar_ok]

theorem bytesToHex_length (bs : List Nat) :
    (bytesToHex bs).data.length = 2 * bs.length := by
  simp only [bytesToHex, data_mk]
  induction bs with
  | nil => rfl
  | cons b tl ih =>
    simp only [List.map_cons, List.flatten_cons, List.length_append, ih, byteToHex,
      List.length_cons, List.length_nil]
    omega

theorem bytesToHex_all (bs : List Nat) (h : ∀ b ∈ bs, b < 256) :
    (bytesToHex bs).data.all isLowerHex = true := by
  simp only [bytesToHex, data_mk]
  induction bs with
  | nil => rfl
  | cons b tl ih =>
    have hb : b < 256 := h b (by simp)
    have h1 : b / 16 < 16 := by omega
    have h2 : b % 16 < 16 := by omega
    simp only [List.map_cons, List.flatten_cons, List.all_append, Bool.and_eq_true]
    refine ⟨?_, ih (fun x hx => h x (by simp [hx]))⟩
    simp [byteToHex, hexDigit_isLowerHex _ h1, hexDigit_isLowerHex _ h2]

theorem removeFirstDot_of_all_word (l : List Char) (h : l.all isWordChar = true) :
    removeFirstDot l = l := by
  induction l with
  | nil => rfl
  | cons c cs ih =>
    simp only [List.all_cons, Bool.and_eq_true] at h
    have hc : ¬(c = '.') := by
      intro hc
      subst hc
      exact absurd h.1 (by decide)
    simp [removeFirstDot, hc, ih h.2]

theorem removeFirstDot_eq (l : List Char) :
    removeFirstDot l =
      l.takeWhile (fun c => !(c == '.')) ++
        (l.dropWhile (fun c => !(c == '.'))).drop 1 := by
  induction l with
  | nil => rfl
  | cons c cs ih =>
    by_cases hc : c = '.'
    · subst hc
      simp [removeFirstDot, List.takeWhile_cons, List.dropWhile_cons]
    · simp [removeFirstDot, List.takeWhile_cons, List.dropWhile_cons, hc, ih]

theorem extPartOk_dot (l : List Char) (hne : l ≠ []) (hall : l.all isWordChar = true) :
    extPartOk ('.' :: l) = true := by
  cases l with
  | nil => exact absurd rfl hne
  | cons c cs => simp [extPartOk, hall]

theorem keyPattern_build (s : String) (p4 p2a p2b hx rest : List Char)
    (hs : s.data =
      "uploads/".data ++
        (p4 ++ ('-' :: (p2a ++ ('-' :: (p2b ++ ('/' :: (hx ++ rest))))))))
    (h4l : p4.length = 4) (h4 : p4.all isDigitChar = true)
    (h2al : p2a.length = 2) (h2a : p2a.all isDigitChar = true)
    (h2bl : p2b.length = 2) (h2b : p2b.all isDigitChar = true)
    (hxl : hx.length = 32) (hhx : hx.all isLowerHex = true)
    (hrest : extPartOk rest = true) :
    matchesKeyPattern s = true := by
  unfold matchesKeyPattern
  rw [hs, opt_bind_some, dropPrefixStr_append, opt_bind_some,
    takeCount_append isDigitChar 4 p4 _ h4l h4, opt_bind_some,
    dropPrefixStr_cons, opt_bind_some,
    takeCount_append isDigitChar 2 p2a _ h2al h2a, opt_bind_some,
    dropPrefixStr_cons, opt_bind_some,
    takeCount_append isDigitChar 2 p2b _ h2bl h2b, opt_bind_some,
    dropPrefixStr_cons, opt_bind_some,
    takeCount_append isLowerHex 32 hx _ hxl hhx]
  exact hrest

/-- The sanitization as claim C4 describes it: strip exactly a leading dot
and change nothing else, preserving dots in other positions.  Declared only
to compare the claimed behaviour with the source's replace(".", ""). -/
def stripLeadingDot (e : String) : String :=
  match e.data with
  | '.' :: rest => String.mk rest
  | _ => e

/- ============ Claim theorems ============ -/

/-- C1: for every request to POST /api/upload-url whose contentType is
present (a non-empty string: the source's !contentType guard treats the
empty string, the only falsy string, like an absent field) but not a member
of the MIME allowlist, the handler responds with status 415 and an error
body, and neither a key is derived nor any presign call is made: the effect
trace is empty. -/
theorem upload_unsupported_mime_rejected (env : Env) (ct : String) (ext : Option String)
    (y m d : Nat) (rnd : List Nat)
    (presign : String → String → String → Except Unit String)
    (hne : ct ≠ "") (hct : ct ∉ allowedMime) :
    uploadHandler env (some ⟨some ct, ext⟩) y m d rnd presign =
      (⟨415, [("error", JsVal.str "MIME não permitido")]⟩, []) := by
  have hc : allowedMime.contains ct = false := by simp [hct]
  simp [uploadHandler, hne, hc, hct]

/-- Witness for C1 at contentType application/pdf. -/
theorem upload_unsupported_mime_witness :
    uploadHandler env0 (some ⟨some "application/pdf", none⟩) 2026 10 11 rnd16 presignOk =
      (⟨415, [("error", JsVal.str "MIME não permitido")]⟩, []) :=
  upload_unsupported_mime_rejected env0 "application/pdf" none 2026 10 11 rnd16 presignOk
    (by decide) (by decide)

/-- C2: the origin policy decision, for every allowlist: allow when the
origin is absent (the source's !origin guard, which also fires for the
empty origin string, the only falsy string); allow any origin when the
allowlist contains the wildcard token; otherwise allow a non-empty origin
exactly when it is a member of the allowlist, by exact case-sensitive
string equality, with no wildcard-subdomain matching. -/
theorem cors_origin_policy (allowed : List String) :
    corsOriginDecision allowed none = true ∧
    (∀ o : String, "*" ∈ allowed → corsOriginDecision allowed (some o) = true) ∧
    (∀ o : String, o ≠ "" → "*" ∉ allowed →
      (corsOriginDecision allowed (some o) = true ↔ o ∈ allowed)) := by
  refine ⟨rfl, ?_, ?_⟩
  · intro o hw
    by_cases ho : o = ""
    · simp [corsOriginDecision, ho]
    · simp [corsOriginDecision, ho, hw]
  · intro o ho hw
    have hcw : allowed.contains "*" = false := by simp [hw]
    simp only [corsOriginDecision, if_neg ho, hcw, Bool.false_eq_true, if_false]
    exact List.elem_iff

/-- Witness for C2: an absent origin, a wildcard allowlist, and an origin
not in a non-wildcard allowlist. -/
theorem cors_origin_policy_witness :
    corsOriginDecision ["https://app.example"] none = true ∧
    corsOriginDecision ["*"] (some "https://other.example") = true ∧
    (corsOriginDecision ["https://app.example"] (some "https://other.example") = true ↔
      "https://other.example" ∈ ["https://app.example"]) :=
  ⟨(cors_origin_policy ["https://app.example"]).1,
   (cors_origin_policy ["*"]).2.1 "https://other.example" (by decide),
   (cors_origin_policy ["https://app.example"]).2.2 "https://other.example"
     (by decide) (by decide)⟩

/-- C3: every derived key is the concatenation of "uploads/", the current
UTC date as YYYY-MM-DD, "/", and 32 lowercase hex characters encoding the
16 random bytes, optionally followed by a dot and the sanitized extension;
hence for every call with a valid Date (year at most 9999, so toISOString
renders a four-digit year), 16 bytes, and ext absent or matching the word
pattern, the key matches the anchored pattern of the specification. -/
theorem deriveKey_matches_key_pattern (y m d : Nat) (rnd : List Nat) (ext : Option String)
    (_hy : y ≤ 9999) (_hm1 : 1 ≤ m) (_hm2 : m ≤ 12) (_hd1 : 1 ≤ d) (_hd2 : d ≤ 31)
    (hlen : rnd.length = 16) (hbytes : ∀ b ∈ rnd, b < 256)
    (hext : ext = none ∨ ∃ e, ext = some e ∧ e ≠ "" ∧ e.data.all isWordChar = true) :
    matchesKeyPattern (deriveKey y m d rnd ext) = true := by
  apply keyPattern_build (deriveKey y m d rnd ext) (pad4 y).data (pad2 m).data
    (pad2 d).data (bytesToHex rnd).data (extSuffix ext).data
  · simp only [deriveKey, isoDate, data_append_eq, dash_data, slash_data,
      List.append_assoc, List.singleton_append, List.cons_append, List.nil_append]
  · exact pad4_length y
  · exact pad4_all_digits y
  · exact pad2_length m
  · exact pad2_all_digits m
  · exact pad2_length d
  · exact pad2_all_digits d
  · rw [bytesToHex_length, hlen]
  · exact bytesToHex_all rnd hbytes
  · rcases hext with rfl | ⟨e, rfl, hne, hall⟩
    · rfl
    · have hsuf : (extSuffix (some e)).data = '.' :: e.data := by
        simp only [extSuffix, if_neg hne, data_append_eq, dot_data, jsReplaceFirstDot,
          data_mk, removeFirstDot_of_all_word e.data hall, List.singleton_append]
      rw [hsuf]
      exact extPartOk_dot e.data (data_ne_nil_of_ne_empty e hne) hall

/-- Witness for C3 at a concrete date, byte list and extension. -/
theorem deriveKey_matches_key_pattern_witness :
    matchesKeyPattern (deriveKey 2026 10 11 rnd16 (some "png")) = true :=
  deriveKey_matches_key_pattern 2026 10 11 rnd16 (some "png")
    (by norm_num) (by norm_num) (by norm_num) (by norm_num) (by norm_num)
    (by decide) (by decide) (Or.inr ⟨"png", rfl, by decide, by decide⟩)

/-- C4 counterexample: for ext "a.b" (no leading dot, one interior dot) the
source's sanitization String(ext).replace(".", "") removes the interior
dot, so the key's extension suffix is ".ab"; the claim's sanitization,
which strips only a leading dot and preserves all other dots, would give
".a.b".  The two disagree. -/
theorem ext_sanitize_not_leading_only :
    extSuffix (some "a.b") = ".ab" ∧
    "." ++ stripLeadingDot "a.b" = ".a.b" ∧
    extSuffix (some "a.b") ≠ "." ++ stripLeadingDot "a.b" := by
  decide

/-- C4 amended: for every supplied non-empty ext string, the sanitization
removes the first occurrence of a dot, wherever it appears, and preserves
every other character in order: the key's extension suffix is a dot
followed by the characters of ext before its first dot and then the
characters after that dot.  In particular a leading dot is stripped, but a
dot in another position is removed as well rather than preserved. -/
theorem ext_sanitize_removes_first_dot (e : String) (he : e ≠ "") :
    extSuffix (some e) =
      "." ++ String.mk (e.data.takeWhile (fun c => !(c == '.')) ++
        (e.data.dropWhile (fun c => !(c == '.'))).drop 1) := by
  simp only [extSuffix, if_neg he, jsReplaceFirstDot, removeFirstDot_eq]

/-- Witness for the amended C4 at ext "a.b". -/
theorem ext_sanitize_removes_first_dot_witness :
    extSuffix (some "a.b") =
      "." ++ String.mk (("a.b".data.takeWhile (fun c => !(c == '.'))) ++
        (("a.b".data.dropWhile (fun c => !(c == '.'))).drop 1)) :=
  ext_sanitize_removes_first_dot "a.b" (by decide)

/-- C5 counterexample: a concrete successful run of the upload handler of
src/app.js produces the response fields putUrl, key and objectUrl, and no
field named signedUrl; the variant src/unnamed/part_000 produces the
fields url and key, likewise without a signedUrl field. -/
theorem upload_response_no_signedUrl_field :
    ((uploadHandler env0 (some ⟨some "image/png", some "png"⟩) 2026 10 11 rnd16
        presignOk).1.body.map Prod.fst) = ["putUrl", "key", "objectUrl"] ∧
    "signedUrl" ∉ ((uploadHandler env0 (some ⟨some "image/png", some "png"⟩) 2026 10 11
        rnd16 presignOk).1.body.map Prod.fst) ∧
    ((uploadHandlerV env0 (some ⟨some "image/png", some "png"⟩) 2026 10 11 rnd16
        presignOk).1.body.map Prod.fst) = ["url", "key"] := by
  decide

/-- C5 amended: on success, POST /api/upload-url of src/app.js returns a
JSON object whose fields are putUrl (the signed upload URL), key, and
objectUrl (the configured public base, a slash, and the key); the variant
src/unnamed/part_000 returns url and key only.  No variant names the
signed-URL field signedUrl. -/
theorem upload_success_response_fields (env : Env) (ct : String) (ext : Option String)
    (y m d : Nat) (rnd : List Nat)
    (presign : String → String → String → Except Unit String) (url : String)
    (hct : ct ∈ allowedMime)
    (hok : presign env.bucket (deriveKey y m d rnd ext) ct = Except.ok url) :
    uploadHandler env (some ⟨some ct, ext⟩) y m d rnd presign =
      (⟨200, [("putUrl", JsVal.str url),
              ("key", JsVal.str (deriveKey y m d rnd ext)),
              ("objectUrl", JsVal.str (env.publicBase ++ "/" ++ deriveKey y m d rnd ext))]⟩,
       [Effect.keyDerived (deriveKey y m d rnd ext),
        Effect.presignPut env.bucket (deriveKey y m d rnd ext) ct]) ∧
    uploadHandlerV env (some ⟨some ct, ext⟩) y m d rnd presign =
      (⟨200, [("url", JsVal.str url),
              ("key", JsVal.str (deriveKey y m d rnd ext))]⟩,
       [Effect.keyDerived (deriveKey y m d rnd ext),
        Effect.presignPut env.bucket (deriveKey y m d rnd ext) ct]) := by
  have hne : ct ≠ "" := by
    rintro rfl
    revert hct
    decide
  have hc : allowedMime.contains ct = true := by simp [hct]
  constructor
  · simp [uploadHandler, hne, hc, hct, hok]
  · simp [uploadHandlerV, hne, hc, hct, hok]

/-- Witness for the amended C5 at a concrete request and oracle. -/
theorem upload_success_response_fields_witness :
    uploadHandler env0 (some ⟨some "image/png", some "png"⟩) 2026 10 11 rnd16 presignOk =
      (⟨200, [("putUrl", JsVal.str "https://signed.example"),
              ("key", JsVal.str (deriveKey 2026 10 11 rnd16 (some "png"))),
              ("objectUrl", JsVal.str (env0.publicBase ++ "/" ++
                deriveKey 2026 10 11 rnd16 (some "png")))]⟩,
       [Effect.keyDerived (deriveKey 2026 10 11 rnd16 (some "png")),
        Effect.presignPut env0.bucket (deriveKey 2026 10 11 rnd16 (some "png")) "image/png"]) ∧
    uploadHandlerV env0 (some ⟨some "image/png", some "png"⟩) 2026 10 11 rnd16 presignOk =
      (⟨200, [("url", JsVal.str "https://signed.example"),
              ("key", JsVal.str (deriveKey 2026 10 11 rnd16 (some "png")))]⟩,
       [Effect.keyDerived (deriveKey 2026 10 11 rnd16 (some "png")),
        Effect.presignPut env0.bucket (deriveKey 2026 10 11 rnd16 (some "png")) "image/png"]) :=
  upload_success_response_fields env0 "image/png" (some "png") 2026 10 11 rnd16 presignOk
    "https://signed.example" (by decide) rfl

/-- C6: for every non-empty key, when the head call fails with status 404
the handler responds 404 with body exists:false; when it fails for any
other reason (any other status code, or none at all) it responds 500 with
a generic error body.  The two failure kinds are always distinguished on
this path. -/
theorem head_distinguishes_not_found (env : Env) (k : String)
    (send : String → String → Except (Option Nat) HeadMeta) (hk : k ≠ "") :
    (send env.bucket k = Except.error (some 404) →
      headHandler env (some k) send =
        (⟨404, [("exists", JsVal.bool false)]⟩, [Effect.headCall env.bucket k])) ∧
    (∀ e : Option Nat, e ≠ some 404 → send env.bucket k = Except.error e →
      headHandler env (some k) send =
        (⟨500, [("error", JsVal.str "erro no head")]⟩, [Effect.headCall env.bucket k])) := by
  constructor
  · intro hs
    simp [headHandler, hk, hs]
  · intro e he hs
    simp [headHandler, hk, hs, he]

/-- Witness for C6: the same key under a 404-failing and a 500-failing
head oracle. -/
theorem head_distinguishes_not_found_witness :
    headHandler env0 (some "uploads/x.png") headSend404 =
      (⟨404, [("exists", JsVal.bool false)]⟩, [Effect.headCall env0.bucket "uploads/x.png"]) ∧
    headHandler env0 (some "uploads/x.png") headSend500 =
      (⟨500, [("error", JsVal.str "erro no head")]⟩, [Effect.headCall env0.bucket "uploads/x.png"]) :=
  ⟨(head_distinguishes_not_found env0 "uploads/x.png" headSend404 (by decide)).1 rfl,
   (head_distinguishes_not_found env0 "uploads/x.png" headSend500 (by decide)).2
     (some 500) (by decide) rfl⟩

/-- C7: for every request to the download-url, head, delete or stream
endpoint in which the key query parameter is absent or empty, the handler
responds 400 with an error body and makes no storage call: the effect
trace is empty.  The source computes String(req.query.key || "") and
rejects when the result is empty, before any storage interaction. -/
theorem missing_key_yields_400 (env : Env) (key : Option String)
    (pg : String → String → Except Unit String)
    (sh : String → String → Except (Option Nat) HeadMeta)
    (sd : String → String → Except Unit Unit)
    (sg : String → String → Except (Option Nat) GetOut)
    (hk : key = none ∨ key = some "") :
    downloadUrlHandler env key pg =
      (⟨400, [("error", JsVal.str "key obrigatório")]⟩, []) ∧
    headHandler env key sh = (⟨400, [("error", JsVal.str "key obrigatório")]⟩, []) ∧
    deleteHandler env key sd = (⟨400, [("error", JsVal.str "key obrigatório")]⟩, []) ∧
    streamHandler env key sg =
      (StreamResult.jsonError 400 [("error", JsVal.str "key obrigatório")], []) := by
  rcases hk with rfl | rfl
  · exact ⟨rfl, rfl, rfl, rfl⟩
  · refine ⟨?_, ?_, ?_, ?_⟩ <;>
      simp [downloadUrlHandler, headHandler, deleteHandler, streamHandler]

/-- Witness for C7 at an absent key with concrete oracles. -/
theorem missing_key_yields_400_witness :
    downloadUrlHandler env0 none presignGetOk =
      (⟨400, [("error", JsVal.str "key obrigatório")]⟩, []) ∧
    headHandler env0 none headSend404 =
      (⟨400, [("error", JsVal.str "key obrigatório")]⟩, []) ∧
    deleteHandler env0 none deleteOk =
      (⟨400, [("error", JsVal.str "key obrigatório")]⟩, []) ∧
    streamHandler env0 none getSendFail =
      (StreamResult.jsonError 400 [("error", JsVal.str "key obrigatório")], []) :=
  missing_key_yields_400 env0 none presignGetOk headSend404 deleteOk getSendFail (Or.inl rfl)

/-- C8: for every non-empty key, the delete handler issues exactly one
unconditional delete to the storage service (the single deleteCall in the
effect trace), and whenever that call completes without error it responds
with ok:true and the same key echoed back.  That the underlying store
completes without error even for a nonexistent key is a property of the
external storage service (spec section 6); the handler maps every
successful completion, existing object or not, to the same ok:true
response, never to an error. -/
theorem delete_success_echoes_key (env : Env) (k : String)
    (send : String → String → Except Unit Unit) (hk : k ≠ "")
    (hok : send env.bucket k = Except.ok ()) :
    deleteHandler env (some k) send =
      (⟨200, [("ok", JsVal.bool true), ("key", JsVal.str k)]⟩,
       [Effect.deleteCall env.bucket k]) := by
  simp [deleteHandler, hk, hok]

/-- Witness for C8 at a concrete key and an always-succeeding oracle. -/
theorem delete_success_echoes_key_witness :
    deleteHandler env0 (some "uploads/x.png") deleteOk =
      (⟨200, [("ok", JsVal.bool true), ("key", JsVal.str "uploads/x.png")]⟩,
       [Effect.deleteCall env0.bucket "uploads/x.png"]) :=
  delete_success_echoes_key env0 "uploads/x.png" deleteOk (by decide) rfl

/-- C9: on the stream path with a non-empty key, every failure of the
storage fetch, whatever its kind (status 404, any other status, or no
status), produces the same single response: status 404 with an error
body.  The handler never returns a 500 and never otherwise distinguishes
failure kinds on this path. -/
theorem stream_failures_collapse_to_404 (env : Env) (k : String)
    (send : String → String → Except (Option Nat) GetOut) (e : Option Nat)
    (hk : k ≠ "") (he : send env.bucket k = Except.error e) :
    streamHandler env (some k) send =
      (StreamResult.jsonError 404 [("error", JsVal.str "não encontrado")],
       [Effect.getCall env.bucket k]) := by
  simp [streamHandler, hk, he]

/-- Witness for C9 at a concrete key and a 403-failing oracle. -/
theorem stream_failures_collapse_to_404_witness :
    streamHandler env0 (some "uploads/x.png") getSendFail =
      (StreamResult.jsonError 404 [("error", JsVal.str "não encontrado")],
       [Effect.getCall env0.bucket "uploads/x.png"]) :=
  stream_failures_collapse_to_404 env0 "uploads/x.png" getSendFail (some 403)
    (by decide) rfl

/-- C10: for a request to POST /api/upload-url whose body is absent or not
a JSON object (req.body undefined or null, modelled as none), the handler
is total: the destructuring falls back to the empty object, contentType is
absent, and the response is status 400 with the missing-contentType error,
with no key derived and no storage call made. -/
theorem upload_missing_body_yields_400 (env : Env) (y m d : Nat) (rnd : List Nat)
    (presign : String → String → String → Except Unit String) :
    uploadHandler env none y m d rnd presign =
      (⟨400, [("error", JsVal.str "contentType obrigatório")]⟩, []) := rfl

end ApiS3
